import Mathlib

/-!
Shallow embedding of the drive-command resolution logic of car.py
(four-wheel differential-steering chassis control).

The eight GPIO output channels (a forward and a reverse channel per
wheel) are modelled as a record of Booleans; the mutation performed by
stop_all and by the inner apply helper of drive becomes explicit state
passing: drive takes the previous channel state and returns the new one.
Axis values are modelled as rationals; the 0.1 deadzone threshold of the
source becomes the rational 1/10.
-/

namespace Car

/-- Tri-state actuation decoded from one pair of channels. -/
inductive WheelState where
  | Forward
  | Reverse
  | Off
deriving DecidableEq, Repr

/-- The two output channels of one wheel: forward drive and reverse drive. -/
structure WheelChannels where
  fwd : Bool
  rev : Bool
deriving DecidableEq, Repr

/-- The full channel state of the chassis: one channel pair per wheel
(FL_FWD/FL_REV, FR_FWD/FR_REV, RL_FWD/RL_REV, RR_FWD/RR_REV in car.py). -/
structure Channels where
  FL : WheelChannels
  FR : WheelChannels
  RL : WheelChannels
  RR : WheelChannels
deriving DecidableEq, Repr

/-- Both channels of a wheel de-asserted. -/
def offWheel : WheelChannels := { fwd := false, rev := false }

/-- stop_all of car.py: switches every one of the eight channels off,
whatever state they were in. -/
def stop_all (_prev : Channels) : Channels :=
  { FL := offWheel, FR := offWheel, RL := offWheel, RR := offWheel }

/-- The all-off channel state (the result of stop_all). -/
def allOff : Channels := stop_all { FL := offWheel, FR := offWheel, RL := offWheel, RR := offWheel }

/-- compensate of car.py: rear wheels get the negated value
(rear-wheel polarity compensation). -/
def compensate (val : ℚ) (is_rear : Bool) : ℚ :=
  if is_rear then -val else val

/-- The inner apply helper of drive in car.py: given the current state of
one wheel channel pair, assert the forward channel when val exceeds 0.1,
the reverse channel when val is below -0.1, and leave the pair untouched
inside the deadzone. -/
def applyDev (dev : WheelChannels) (val : ℚ) : WheelChannels :=
  if val > 1/10 then { dev with fwd := true }
  else if val < -(1/10) then { dev with rev := true }
  else dev

/-- drive of car.py: first stop_all, then per-wheel application.
mode_4wd = true drives all four wheels (rear pair compensated);
mode_4wd = false (eco) drives only FL and RR (RR compensated), the other
two wheels keep the state left by stop_all. -/
def drive (prev : Channels) (mode_4wd : Bool) (v_l v_r : ℚ) : Channels :=
  let s := stop_all prev
  if mode_4wd then
    { FL := applyDev s.FL (compensate v_l false)
      RL := applyDev s.RL (compensate v_l true)
      FR := applyDev s.FR (compensate v_r false)
      RR := applyDev s.RR (compensate v_r true) }
  else
    { s with
      FL := applyDev s.FL (compensate v_l false)
      RR := applyDev s.RR (compensate v_r true) }

/-- The clamp used in CarApp.apply of car.py: max(-1, min(1, v)). -/
def clampUnit (v : ℚ) : ℚ := max (-1) (min 1 v)

/-- CarApp.apply of car.py (the drive part): compute the differential
pair v_l = clamp(throttle + turn), v_r = clamp(throttle - turn) and call
drive on it. -/
def applyDrive (prev : Channels) (mode_4wd : Bool) (throttle turn : ℚ) : Channels :=
  drive prev mode_4wd (clampUnit (throttle + turn)) (clampUnit (throttle - turn))

/-- Decode the tri-state of a wheel from its channel pair (forward channel
wins when read first, as a decoder of well-formed states). -/
def wheelStateOf (dev : WheelChannels) : WheelState :=
  if dev.fwd then WheelState.Forward
  else if dev.rev then WheelState.Reverse
  else WheelState.Off

/-- Swap Forward and Reverse. -/
def invertState : WheelState → WheelState
  | WheelState.Forward => WheelState.Reverse
  | WheelState.Reverse => WheelState.Forward
  | WheelState.Off => WheelState.Off

/-- The logical forward/reverse intent carried by a channel pair: rear
wheels are wired with inverted polarity (compensate negates their value
in drive), so the logical intent of a rear wheel is the channel decoding
with Forward and Reverse swapped; front wheels read off directly. -/
def logicalState (is_rear : Bool) (dev : WheelChannels) : WheelState :=
  if is_rear then invertState (wheelStateOf dev) else wheelStateOf dev

/-- The deadzone decoding of a raw channel value (the thresholds of the
inner apply helper of drive): Forward above 0.1, Reverse below -0.1,
otherwise Off. -/
def stateOfVal (v : ℚ) : WheelState :=
  if v > 1/10 then WheelState.Forward
  else if v < -(1/10) then WheelState.Reverse
  else WheelState.Off

/-- The resolution pipeline as the specification words it: throttle and
turn are each clamped to [-1, 1] first, and only then the differential
pair is computed and driven. Stated for comparison with applyDrive,
which is the embedding of the source. -/
def applyDriveSpec (prev : Channels) (mode_4wd : Bool) (throttle turn : ℚ) : Channels :=
  drive prev mode_4wd
    (clampUnit (clampUnit throttle + clampUnit turn))
    (clampUnit (clampUnit throttle - clampUnit turn))

/-- One sample of the physical controller read in CarApp.update of
car.py: the two left-stick axes (axis 0 is left/right, axis 1 is
up/down) and the five buttons the loop inspects. -/
structure JoySample where
  axis0 : ℚ
  axis1 : ℚ
  btnA : Bool
  btnB : Bool
  btnX : Bool
  btnLB : Bool
  btnRB : Bool
deriving DecidableEq, Repr

/-- The mutable state CarApp.update touches: the manual-surface throttle
and turn, and the process-wide mode_4wd flag. -/
structure AppState where
  throttle : ℚ
  turn : ℚ
  mode_4wd : Bool
deriving DecidableEq, Repr

/-- CarApp.update of car.py, one tick, state part: with no controller the
state is untouched; with a controller the left-stick axes replace
throttle and turn (throttle := axis 1, turn := axis 0), then buttons A,
B, X overwrite them with the quick pairs (1,0), (0,1), (0,0) in that
order, then LB sets mode_4wd and RB clears it, in that order. -/
def updateStep (s : AppState) (joy : Option JoySample) : AppState :=
  match joy with
  | none => s
  | some j =>
    let s1 : AppState := { s with throttle := j.axis1, turn := j.axis0 }
    let s2 : AppState := if j.btnA then { s1 with throttle := 1, turn := 0 } else s1
    let s3 : AppState := if j.btnB then { s2 with throttle := 0, turn := 1 } else s2
    let s4 : AppState := if j.btnX then { s3 with throttle := 0, turn := 0 } else s3
    let s5 : AppState := if j.btnLB then { s4 with mode_4wd := true } else s4
    if j.btnRB then { s5 with mode_4wd := false } else s5

/-- The command derived from the controller sample alone, per the
specification of the arbiter: the axis pair (throttle from axis 1, turn
from axis 0), overridden by the quick-action buttons with their fixed
canonical pairs. Defined only from the sample, with no reference to the
manual-surface state. -/
def controllerResolved (j : JoySample) : ℚ × ℚ :=
  let p : ℚ × ℚ := (j.axis1, j.axis0)
  let p : ℚ × ℚ := if j.btnA then (1, 0) else p
  let p : ℚ × ℚ := if j.btnB then (0, 1) else p
  if j.btnX then (0, 0) else p

/-- Per-wheel tri-states, one per WheelId. -/
structure WheelMap where
  FL : WheelState
  FR : WheelState
  RL : WheelState
  RR : WheelState
deriving DecidableEq, Repr

/-- All four wheels Off. -/
def mapAllOff : WheelMap :=
  { FL := WheelState.Off, FR := WheelState.Off, RL := WheelState.Off, RR := WheelState.Off }

/-- Modelled from the spec: the EcoAdaptive wheel assignment, a mode that
is absent from src/car.py (the source holds only the FourWheel and the
fixed eco policy). Following the specification words: with
fwd = (v_left + v_right)/2 and trn = (v_left - v_right)/2, if the
forward component dominates strictly, activate the rear pair
(RL from v_left, RR from v_right) when fwd > 0, else the front pair
(FL from v_left, FR from v_right) when fwd < 0; otherwise activate the
left side pair (FL, RL, both from v_left) when trn > 0, else the right
side pair (FR, RR, both from v_right) when trn < 0; the inactive wheels
are forced Off, and activated wheels still pass through the deadzone
decoding of their value. -/
def ecoAdaptive (v_left v_right : ℚ) : WheelMap :=
  let fwd := (v_left + v_right) / 2
  let trn := (v_left - v_right) / 2
  if |fwd| > |trn| then
    if fwd > 0 then
      { mapAllOff with RL := stateOfVal v_left, RR := stateOfVal v_right }
    else if fwd < 0 then
      { mapAllOff with FL := stateOfVal v_left, FR := stateOfVal v_right }
    else mapAllOff
  else
    if trn > 0 then
      { mapAllOff with FL := stateOfVal v_left, RL := stateOfVal v_left }
    else if trn < 0 then
      { mapAllOff with FR := stateOfVal v_right, RR := stateOfVal v_right }
    else mapAllOff

/-- Modelled from the spec: the full EcoAdaptive resolution of a
(throttle, turn) command: clamp each input to [-1, 1], compute the
differential pair with clamping, and assign wheels adaptively. -/
def resolveAdaptive (throttle turn : ℚ) : WheelMap :=
  let t := clampUnit throttle
  let r := clampUnit turn
  ecoAdaptive (clampUnit (t + r)) (clampUnit (t - r))

/-- The number of wheels of a map resolved to a non-Off state. -/
def activeCount (m : WheelMap) : ℕ :=
  (if m.FL ≠ WheelState.Off then 1 else 0)
    + (if m.FR ≠ WheelState.Off then 1 else 0)
    + (if m.RL ≠ WheelState.Off then 1 else 0)
    + (if m.RR ≠ WheelState.Off then 1 else 0)

/-- CarApp.calc_axes of car.py: a pointer coordinate (x, y) on the
200 x 200 canvas is turned into (turn, throttle). The offset from the
centre (100, 100) is taken with the vertical axis flipped, its length is
math.hypot; offsets longer than the radius 80 are rescaled onto the rim,
and both components are divided by 80. Modelled over the reals because
of the square root. -/
noncomputable def calc_axes (x y : ℝ) : ℝ × ℝ :=
  let cx : ℝ := 100
  let cy : ℝ := 100
  let dx := x - cx
  let dy := cy - y
  let dist := Real.sqrt (dx ^ 2 + dy ^ 2)
  let dx2 := if dist > 80 then dx * (80 / dist) else dx
  let dy2 := if dist > 80 then dy * (80 / dist) else dy
  (dx2 / 80, dy2 / 80)

/-! ### Helper lemmas -/

/-- Applying a value to a reset channel pair decodes exactly as the
deadzone decoding of the value. -/
lemma wheelStateOf_applyDev (v : ℚ) :
    wheelStateOf (applyDev offWheel v) = stateOfVal v := by
  unfold applyDev stateOfVal
  split_ifs <;> rfl

/-- Negating a value and swapping Forward with Reverse commute through
the deadzone decoding. -/
lemma invertState_stateOfVal_neg (v : ℚ) :
    invertState (stateOfVal (-v)) = stateOfVal v := by
  unfold stateOfVal
  split_ifs <;> first | rfl | (exfalso; linarith)

/-- A value inside the deadzone decodes to Off. -/
lemma stateOfVal_off {v : ℚ} (h : |v| ≤ 1/10) : stateOfVal v = WheelState.Off := by
  rw [abs_le] at h
  unfold stateOfVal
  split_ifs with h1 h2
  · exact absurd h1 (by linarith [h.2])
  · exact absurd h2 (by linarith [h.1])
  · rfl

/-- The clamp of CarApp.apply is the identity on values already in
[-1, 1]. -/
lemma clampUnit_of_abs_le {v : ℚ} (h : |v| ≤ 1) : clampUnit v = v := by
  rw [abs_le] at h
  unfold clampUnit
  rw [min_eq_right h.2, max_eq_right h.1]

/-! ### Claims -/

/-- Claim C1: for every throttle and turn in [-1, 1], resolving with
mode_4wd (FourWheel) gives FL and RL the same logical wheel state, both
derived from the left channel value, and FR and RR the same logical
wheel state, both derived from the right channel value. -/
theorem C1_fourwheel_pairs_agree (prev : Channels) (throttle turn : ℚ)
    (ht1 : -1 ≤ throttle) (ht2 : throttle ≤ 1) (hr1 : -1 ≤ turn) (hr2 : turn ≤ 1) :
    logicalState false (applyDrive prev true throttle turn).FL
        = logicalState true (applyDrive prev true throttle turn).RL
    ∧ logicalState false (applyDrive prev true throttle turn).FR
        = logicalState true (applyDrive prev true throttle turn).RR := by
  constructor <;>
    simp [applyDrive, drive, stop_all, compensate, logicalState,
      wheelStateOf_applyDev, invertState_stateOfVal_neg]

/-- Witness for C1 at throttle = 1, turn = 0 from the all-off state. -/
theorem C1_fourwheel_pairs_agree_witness :
    -1 ≤ (1 : ℚ) ∧ (1 : ℚ) ≤ 1 ∧ -1 ≤ (0 : ℚ) ∧ (0 : ℚ) ≤ 1
    ∧ (logicalState false (applyDrive allOff true 1 0).FL
          = logicalState true (applyDrive allOff true 1 0).RL
       ∧ logicalState false (applyDrive allOff true 1 0).FR
          = logicalState true (applyDrive allOff true 1 0).RR) :=
  ⟨by norm_num, by norm_num, by norm_num, by norm_num,
    C1_fourwheel_pairs_agree allOff 1 0 (by norm_num) (by norm_num) (by norm_num) (by norm_num)⟩

/-- Claim C3: in the fixed eco mode, for every throttle and turn, FL
carries the logical state decoded from the left channel value and RR the
logical state decoded from the right channel value, while FR and RL are
forced Off. -/
theorem C3_ecofixed_assignment (prev : Channels) (throttle turn : ℚ) :
    logicalState false (applyDrive prev false throttle turn).FL
        = stateOfVal (clampUnit (throttle + turn))
    ∧ logicalState true (applyDrive prev false throttle turn).RR
        = stateOfVal (clampUnit (throttle - turn))
    ∧ wheelStateOf (applyDrive prev false throttle turn).FR = WheelState.Off
    ∧ wheelStateOf (applyDrive prev false throttle turn).RL = WheelState.Off := by
  refine ⟨?_, ?_, ?_, ?_⟩
  · simp [applyDrive, drive, stop_all, compensate, logicalState, wheelStateOf_applyDev]
  · simp [applyDrive, drive, stop_all, compensate, logicalState,
      wheelStateOf_applyDev, invertState_stateOfVal_neg]
  · simp [applyDrive, drive, stop_all, wheelStateOf, offWheel]
  · simp [applyDrive, drive, stop_all, wheelStateOf, offWheel]

/-- Claim C8: every drive resolution starts from the all-off reset of
the eight channels, so the result never asserts both channels of one
wheel, and it is the same as the resolution started from the fully reset
state, whatever channel state was left by the previous cycle. -/
theorem C8_reset_before_assert (prev : Channels) (mode : Bool) (v_l v_r : ℚ) :
    (¬((drive prev mode v_l v_r).FL.fwd = true ∧ (drive prev mode v_l v_r).FL.rev = true)
      ∧ ¬((drive prev mode v_l v_r).FR.fwd = true ∧ (drive prev mode v_l v_r).FR.rev = true)
      ∧ ¬((drive prev mode v_l v_r).RL.fwd = true ∧ (drive prev mode v_l v_r).RL.rev = true)
      ∧ ¬((drive prev mode v_l v_r).RR.fwd = true ∧ (drive prev mode v_l v_r).RR.rev = true))
    ∧ drive prev mode v_l v_r = drive allOff mode v_l v_r := by
  have excl : ∀ w : ℚ, ¬((applyDev offWheel w).fwd = true ∧ (applyDev offWheel w).rev = true) := by
    intro w
    unfold applyDev
    split_ifs <;> simp [offWheel]
  have exclOff : ¬(offWheel.fwd = true ∧ offWheel.rev = true) := by
    simp [offWheel]
  refine ⟨?_, ?_⟩
  · cases mode
    · exact ⟨excl _, exclOff, exclOff, excl _⟩
    · exact ⟨excl _, excl _, excl _, excl _⟩
  · cases mode <;> rfl

/-- Claim C9: drive is deterministic in its explicit arguments: a second
call with the same left value, right value and mode yields the same
channel state, and the result does not depend on the channel state the
previous call (or any other mutation) left behind. -/
theorem C9_drive_deterministic (prev : Channels) (mode : Bool) (v_l v_r : ℚ) :
    drive (drive prev mode v_l v_r) mode v_l v_r = drive prev mode v_l v_r
    ∧ ∀ prev2 : Channels, drive prev mode v_l v_r = drive prev2 mode v_l v_r := by
  cases mode <;> exact ⟨rfl, fun _ => rfl⟩

/-- Claim C7: a per-channel value inside the deadzone leaves the wheel
Off, above 0.1 drives it Forward and below -0.1 drives it Reverse; and
whenever both differential values are inside the deadzone, all four
wheels resolve to Off in either mode. -/
theorem C7_deadzone (v throttle turn : ℚ) (mode : Bool) (prev : Channels)
    (h1 : |throttle + turn| ≤ 1/10) (h2 : |throttle - turn| ≤ 1/10) :
    (|v| ≤ 1/10 → wheelStateOf (applyDev offWheel v) = WheelState.Off)
    ∧ (v > 1/10 → wheelStateOf (applyDev offWheel v) = WheelState.Forward)
    ∧ (v < -(1/10) → wheelStateOf (applyDev offWheel v) = WheelState.Reverse)
    ∧ (wheelStateOf (applyDrive prev mode throttle turn).FL = WheelState.Off
       ∧ wheelStateOf (applyDrive prev mode throttle turn).FR = WheelState.Off
       ∧ wheelStateOf (applyDrive prev mode throttle turn).RL = WheelState.Off
       ∧ wheelStateOf (applyDrive prev mode throttle turn).RR = WheelState.Off) := by
  have hl : clampUnit (throttle + turn) = throttle + turn :=
    clampUnit_of_abs_le (le_trans h1 (by norm_num))
  have hr : clampUnit (throttle - turn) = throttle - turn :=
    clampUnit_of_abs_le (le_trans h2 (by norm_num))
  have z1 : stateOfVal (throttle + turn) = WheelState.Off := stateOfVal_off h1
  have z2 : stateOfVal (throttle - turn) = WheelState.Off := stateOfVal_off h2
  have z3 : stateOfVal (-turn + -throttle) = WheelState.Off := by
    refine stateOfVal_off ?_
    rw [show (-turn + -throttle : ℚ) = -(throttle + turn) by ring, abs_neg]
    exact h1
  have z4 : stateOfVal (turn - throttle) = WheelState.Off := by
    refine stateOfVal_off ?_
    rw [show (turn - throttle : ℚ) = -(throttle - turn) by ring, abs_neg]
    exact h2
  refine ⟨?_, ?_, ?_, ?_⟩
  · intro hv
    rw [wheelStateOf_applyDev]
    exact stateOfVal_off hv
  · intro hv
    rw [wheelStateOf_applyDev]
    unfold stateOfVal
    rw [if_pos hv]
  · intro hv
    rw [wheelStateOf_applyDev]
    unfold stateOfVal
    rw [if_neg (by linarith), if_pos hv]
  · cases mode
    · refine ⟨?_, ?_, ?_, ?_⟩
      · simp [applyDrive, drive, stop_all, compensate, wheelStateOf_applyDev, hl, z1]
      · simp [applyDrive, drive, stop_all, wheelStateOf, offWheel]
      · simp [applyDrive, drive, stop_all, wheelStateOf, offWheel]
      · simp [applyDrive, drive, stop_all, compensate, wheelStateOf_applyDev, hr, z4]
    · refine ⟨?_, ?_, ?_, ?_⟩
      · simp [applyDrive, drive, stop_all, compensate, wheelStateOf_applyDev, hl, z1]
      · simp [applyDrive, drive, stop_all, compensate, wheelStateOf_applyDev, hr, z2]
      · simp [applyDrive, drive, stop_all, compensate, wheelStateOf_applyDev, hl, z3]
      · simp [applyDrive, drive, stop_all, compensate, wheelStateOf_applyDev, hr, z4]

/-- Witness for C7 at v = 1, throttle = 0, turn = 0, four-wheel mode,
from the all-off state. -/
theorem C7_deadzone_witness :
    |(0 : ℚ) + 0| ≤ 1/10 ∧ |(0 : ℚ) - 0| ≤ 1/10
    ∧ ((|(1 : ℚ)| ≤ 1/10 → wheelStateOf (applyDev offWheel 1) = WheelState.Off)
       ∧ ((1 : ℚ) > 1/10 → wheelStateOf (applyDev offWheel 1) = WheelState.Forward)
       ∧ ((1 : ℚ) < -(1/10) → wheelStateOf (applyDev offWheel 1) = WheelState.Reverse)
       ∧ (wheelStateOf (applyDrive allOff true 0 0).FL = WheelState.Off
          ∧ wheelStateOf (applyDrive allOff true 0 0).FR = WheelState.Off
          ∧ wheelStateOf (applyDrive allOff true 0 0).RL = WheelState.Off
          ∧ wheelStateOf (applyDrive allOff true 0 0).RR = WheelState.Off)) :=
  ⟨by norm_num, by norm_num, C7_deadzone 1 0 0 true allOff (by norm_num) (by norm_num)⟩

/-- Counterexample to claim C2: with the four-wheel-select (LB) and
eco-select (RB) signals both asserted in one update cycle, the resulting
mode_4wd flag is not true (not FourWheel): the RB branch runs after the
LB branch, so eco wins, contradicting the claimed precedence. -/
theorem C2_counterexample :
    ¬ ((updateStep { throttle := 0, turn := 0, mode_4wd := true }
        (some { axis0 := 0, axis1 := 0, btnA := false, btnB := false, btnX := false,
                btnLB := true, btnRB := true })).mode_4wd = true) := by
  simp [updateStep]

/-- Claim C2 as amended: when the four-wheel-select and eco-select
signals are asserted simultaneously in one cycle, the resulting mode is
eco (mode_4wd = false): eco-select takes precedence because its branch
runs last. -/
theorem C2_amended_eco_wins (s : AppState) (j : JoySample)
    (hLB : j.btnLB = true) (hRB : j.btnRB = true) :
    (updateStep s (some j)).mode_4wd = false := by
  simp [updateStep, hRB]

/-- Witness for the amended C2 with both mode buttons held. -/
theorem C2_amended_eco_wins_witness :
    (JoySample.mk (1/2) 0 false false false true true).btnLB = true
    ∧ (JoySample.mk (1/2) 0 false false false true true).btnRB = true
    ∧ (updateStep (AppState.mk (1/2) (1/2) false)
        (some (JoySample.mk (1/2) 0 false false false true true))).mode_4wd = false :=
  ⟨rfl, rfl, C2_amended_eco_wins (AppState.mk (1/2) (1/2) false)
    (JoySample.mk (1/2) 0 false false false true true) rfl rfl⟩

/-- Claim C6: with a controller attached, the resolved throttle/turn of
the update cycle is exactly the controller-derived command (axes, then
quick-action overrides), and is independent of whatever throttle/turn
the manual surface had left in the state: the sample replaces, never
blends with, the manual values. -/
theorem C6_controller_replaces_manual (s s2 : AppState) (j : JoySample) :
    ((updateStep s (some j)).throttle, (updateStep s (some j)).turn) = controllerResolved j
    ∧ (updateStep s (some j)).throttle = (updateStep s2 (some j)).throttle
    ∧ (updateStep s (some j)).turn = (updateStep s2 (some j)).turn := by
  cases hA : j.btnA <;> cases hB : j.btnB <;> cases hX : j.btnX <;>
    cases hLB : j.btnLB <;> cases hRB : j.btnRB <;>
    simp [updateStep, controllerResolved, hA, hB, hX, hLB, hRB]

/-- Counterexample to claim C5: the source clamps only the two combined
differential values, not throttle and turn individually, and at the
unclamped input (throttle, turn) = (2, -1) the two pipelines produce
different wheel states (the source drives FL Forward, the
individually-clamping pipeline leaves FL Off). -/
theorem C5_counterexample :
    applyDrive allOff true 2 (-1) ≠ applyDriveSpec allOff true 2 (-1) := by
  norm_num [applyDrive, applyDriveSpec, drive, stop_all, allOff, offWheel, compensate,
    applyDev, clampUnit, min_def, max_def]

/-- Claim C5 as amended: the resolver computes
v_left = clamp(throttle + turn) and v_right = clamp(throttle - turn)
directly on the raw inputs, with no individual clamping of throttle and
turn first; for inputs already in [-1, 1] (where the individual clamp is
the identity) the wheel states do agree with the individually-clamped
pipeline. -/
theorem C5_amended_clamp_agree (prev : Channels) (mode : Bool) (throttle turn : ℚ)
    (h1 : |throttle| ≤ 1) (h2 : |turn| ≤ 1) :
    applyDrive prev mode throttle turn = applyDriveSpec prev mode throttle turn := by
  unfold applyDrive applyDriveSpec
  rw [clampUnit_of_abs_le h1, clampUnit_of_abs_le h2]

/-- Witness for the amended C5 at throttle = 1/2, turn = 0 in eco mode. -/
theorem C5_amended_clamp_agree_witness :
    |(1 : ℚ)/2| ≤ 1 ∧ |(0 : ℚ)| ≤ 1
    ∧ applyDrive allOff false (1/2) 0 = applyDriveSpec allOff false (1/2) 0 :=
  ⟨by rw [abs_le]; constructor <;> norm_num, by rw [abs_le]; constructor <;> norm_num,
    C5_amended_clamp_agree allOff false (1/2) 0
      (by rw [abs_le]; constructor <;> norm_num) (by rw [abs_le]; constructor <;> norm_num)⟩

/-- Counterexample to claim C4: at (throttle, turn) = (7/40, 1/8) the
EcoAdaptive resolution modelled from the spec activates the rear pair
with v_left = 3/10 and v_right = 1/20, and the deadzone turns the RR
wheel Off, leaving exactly one non-Off wheel: the count is neither 0
nor 2. -/
theorem C4_counterexample :
    ¬ (activeCount (resolveAdaptive (7/40) (1/8)) = 0
       ∨ activeCount (resolveAdaptive (7/40) (1/8)) = 2) := by
  have h : activeCount (resolveAdaptive (7/40) (1/8)) = 1 := by
    norm_num [activeCount, resolveAdaptive, ecoAdaptive, mapAllOff, stateOfVal, clampUnit,
      min_def, max_def, abs]
    decide
  rw [h]
  omega

/-- Claim C4 as amended: in the EcoAdaptive mode modelled from the spec,
the number of wheels resolved to a non-Off state is always at most 2
(0, 1 or 2) — never 3 or 4; the deadzone can switch off one wheel of the
activated pair, so a count of exactly 1 is reachable. -/
theorem C4_amended_at_most_two (throttle turn : ℚ) :
    activeCount (resolveAdaptive throttle turn) ≤ 2 := by
  simp only [resolveAdaptive, ecoAdaptive, activeCount, mapAllOff]
  split_ifs <;> simp_all

/-- Claim C10: every pointer coordinate is mapped by calc_axes to a
(turn, throttle) pair of norm at most 1 (points outside the pad circle
are projected onto its rim), so each component lies in [-1, 1]. -/
theorem C10_axes_in_unit_disc (x y : ℝ) :
    Real.sqrt ((calc_axes x y).1 ^ 2 + (calc_axes x y).2 ^ 2) ≤ 1
    ∧ |(calc_axes x y).1| ≤ 1 ∧ |(calc_axes x y).2| ≤ 1 := by
  have key : (calc_axes x y).1 ^ 2 + (calc_axes x y).2 ^ 2 ≤ 1 := by
    simp only [calc_axes]
    set dx := x - 100 with hdx
    set dy := 100 - y with hdy
    have hnn : (0 : ℝ) ≤ dx ^ 2 + dy ^ 2 := by positivity
    have hsq : Real.sqrt (dx ^ 2 + dy ^ 2) ^ 2 = dx ^ 2 + dy ^ 2 := Real.sq_sqrt hnn
    by_cases h : Real.sqrt (dx ^ 2 + dy ^ 2) > 80
    · have hd0 : (0 : ℝ) < Real.sqrt (dx ^ 2 + dy ^ 2) := lt_trans (by norm_num) h
      have hpos : (0 : ℝ) < dx ^ 2 + dy ^ 2 := by nlinarith
      rw [if_pos h, if_pos h]
      have e1 : dx * (80 / Real.sqrt (dx ^ 2 + dy ^ 2)) / 80
          = dx / Real.sqrt (dx ^ 2 + dy ^ 2) := by
        field_simp
        ring
      have e2 : dy * (80 / Real.sqrt (dx ^ 2 + dy ^ 2)) / 80
          = dy / Real.sqrt (dx ^ 2 + dy ^ 2) := by
        field_simp
        ring
      rw [e1, e2, div_pow, div_pow, div_add_div_same, hsq, div_self (ne_of_gt hpos)]
    · push_neg at h
      have h2 : dx ^ 2 + dy ^ 2 ≤ 6400 := by
        nlinarith [hsq, mul_le_mul h h (Real.sqrt_nonneg (dx ^ 2 + dy ^ 2))
          (by norm_num : (0 : ℝ) ≤ 80)]
      rw [if_neg (not_lt.mpr h), if_neg (not_lt.mpr h)]
      rw [div_pow, div_pow, div_add_div_same,
        show ((80 : ℝ)) ^ 2 = 6400 by norm_num,
        div_le_one (by norm_num : (0 : ℝ) < 6400)]
      exact h2
  refine ⟨?_, ?_, ?_⟩
  · have h1 : Real.sqrt ((calc_axes x y).1 ^ 2 + (calc_axes x y).2 ^ 2) ≤ Real.sqrt 1 :=
      Real.sqrt_le_sqrt key
    simpa using h1
  · rw [abs_le]
    constructor <;>
      nlinarith [key, sq_nonneg ((calc_axes x y).2),
        sq_nonneg ((calc_axes x y).1 + 1), sq_nonneg ((calc_axes x y).1 - 1)]
  · rw [abs_le]
    constructor <;>
      nlinarith [key, sq_nonneg ((calc_axes x y).1),
        sq_nonneg ((calc_axes x y).2 + 1), sq_nonneg ((calc_axes x y).2 - 1)]

end Car
